import Mathlib

/-!
Shallow embedding of `bevy-mod-adwaita` (`src/lib.rs`): the cross-thread
frame-handoff and render-target lifecycle subsystem.  Pure Lean models of
the single-slot frame cell, the window entity state, the per-tick poll
step (`poll_windows`), the extract phase (`extract_windows`), the publish
phase (`send_frame_info_to_windows`) and the window-open entity command
(`AdwaitaWindow::open`), together with theorems settling the spec claims.
-/

namespace Adwaita

/-- `bevy::math::UVec2`: a pair of unsigned 32-bit dimensions.  Both
dimensions in this subsystem come from `u32::try_from` of an `i32` or from
`u32::max`, so they always fit in 32 bits and are modelled as `Nat`. -/
structure UVec2 where
  x : Nat
  y : Nat
deriving DecidableEq, Repr

/-- Modelled from the spec: `render::DmabufInfo` lives in `src/render.rs`,
which is not part of the provided sources.  From the spec's Frame
Descriptor and the construction site in `poll_windows`, it carries the
rendered size and an exported cross-process buffer descriptor (a
file-descriptor-like handle, abstracted as `Nat`). -/
structure DmabufInfo where
  size : UVec2
  fd : Nat
deriving DecidableEq, Repr

/-- Modelled from the spec: `render::FrameInfo` lives in `src/render.rs`,
which is not part of the provided sources.  From the spec's Frame
Descriptor and the construction site in `poll_windows`, it bundles the
dmabuf description with a shared GPU texture-view reference (abstracted as
`Nat`). -/
structure FrameInfo where
  dmabuf : DmabufInfo
  texture_view : Nat
deriving DecidableEq, Repr

/-- `atomicbox::AtomicOptionBox<T>.store(Some(v), ..)`: unconditionally
overwrite the slot's contents with the new value (newest-wins, never
blocks). -/
def slotStore (v : α) (_slot : Option α) : Option α :=
  some v

/-- `atomicbox::AtomicOptionBox<T>.take(..)`: remove and return the slot's
contents, leaving the slot empty (never blocks). -/
def slotTake (slot : Option α) : Option α × Option α :=
  (slot, none)

/-- `u32::try_from(i: i32)`: succeeds exactly on non-negative inputs
(every `i32` fits in `u32` once non-negative). -/
def u32TryFrom (i : Int) : Option Nat :=
  if 0 ≤ i then some i.toNat else none

/-- `bevy`'s `ManualTextureViews` registry, modelled as an association
list from `ManualTextureViewHandle` (a `u32`, abstracted as `Nat`) to the
registered render target, of which only the allocated size is relevant
here. -/
abbrev Registry := List (Nat × UVec2)

/-- `ManualTextureViews::contains_key`. -/
def containsKey (views : Registry) (handle : Nat) : Bool :=
  views.any (fun p => p.1 = handle)

/-- `ManualTextureViews::insert`: replacement, not insertion, when the key
is already present (standard map semantics). -/
def insertReplace (views : Registry) (handle : Nat) (v : UVec2) : Registry :=
  if containsKey views handle then
    views.map (fun p => if p.1 = handle then (handle, v) else p)
  else
    views ++ [(handle, v)]

/-- The render-side state of one window entity (`AdwaitaWindow` component
in `src/lib.rs`).  The two shared size integers, the closed flag, the
consumer-facing shared frame cell and the producer-side frame cell are the
cross-thread state; the command sender is irrelevant to the claims and
omitted. -/
structure AdwaitaWindow where
  render_target_width : Int
  render_target_height : Int
  shared_next_frame : Option FrameInfo
  closed : Bool
  render_target_handle : Nat
  last_render_target_size : UVec2
  next_frame_info : Option FrameInfo
deriving DecidableEq, Repr

/-- The state of a freshly opened window as inserted by
`AdwaitaWindow::open`: size cells at the `-1` sentinel, both frame cells
empty, closed flag `false`, `last_render_target_size = (0, 0)`. -/
def newWindow (handle : Nat) : AdwaitaWindow :=
  { render_target_width := -1
    render_target_height := -1
    shared_next_frame := none
    closed := false
    render_target_handle := handle
    last_render_target_size := ⟨0, 0⟩
    next_frame_info := none }

/-- The outcome of one iteration of the `poll_windows` loop for one
entity: whether the entity was despawned, the entity's post state, the
registry's post state, and — as the observation the claims are about —
the size passed to the render-target allocator on this tick, if the
allocator was invoked at all. -/
structure PollResult where
  despawned : Bool
  window : AdwaitaWindow
  views : Registry
  allocated : Option UVec2
deriving DecidableEq, Repr

/-- One iteration of the `poll_windows` loop body (`src/lib.rs` lines
239-277) for one window entity.  `alloc` stands for
`render::setup_render_target`, abstracted as an arbitrary function from
the requested size to a (texture view, dmabuf fd) pair; the size handed to
it is recorded in `PollResult.allocated`. -/
def pollWindow (alloc : UVec2 → Nat × Nat) (w : AdwaitaWindow) (views : Registry) :
    PollResult :=
  if w.closed then
    { despawned := true, window := w, views := views, allocated := none }
  else
    match u32TryFrom w.render_target_width, u32TryFrom w.render_target_height with
    | some width, some height =>
      let size : UVec2 := ⟨max width 1, max height 1⟩
      if size = w.last_render_target_size then
        { despawned := false, window := w, views := views, allocated := none }
      else
        let w' := { w with last_render_target_size := size }
        let tv_fd := alloc size
        let views' := insertReplace views w'.render_target_handle size
        let frame : FrameInfo :=
          { dmabuf := { size := size, fd := tv_fd.2 }, texture_view := tv_fd.1 }
        let w'' := { w' with next_frame_info := slotStore frame w'.next_frame_info }
        { despawned := false, window := w'', views := views', allocated := some size }
    | _, _ =>
      { despawned := false, window := w, views := views, allocated := none }

/-- What the UI-toolkit thread may have written into the shared cells
before a given poll tick: the closed flag and the two size integers. -/
structure TickInput where
  closed : Bool
  width : Int
  height : Int
deriving DecidableEq, Repr

/-- Write a tick's UI-side inputs into the window's shared cells. -/
def applyInput (w : AdwaitaWindow) (t : TickInput) : AdwaitaWindow :=
  { w with
    closed := t.closed
    render_target_width := t.width
    render_target_height := t.height }

/-- Run successive poll ticks for one entity from a given state.  Each
tick first lets the UI thread publish its inputs, then runs the
`poll_windows` body.  Returns `none` for the entity once it has been
despawned, together with the per-tick allocator observations. -/
def runTicks (alloc : UVec2 → Nat × Nat) :
    Option (AdwaitaWindow × Registry) → List TickInput →
    Option (AdwaitaWindow × Registry) × List (Option UVec2)
  | none, ts => (none, ts.map (fun _ => none))
  | some st, [] => (some st, [])
  | some (w, views), t :: ts =>
    let r := pollWindow alloc (applyInput w t) views
    let rest :=
      runTicks alloc (if r.despawned then none else some (r.window, r.views)) ts
    (rest.1, r.allocated :: rest.2)

/-- The handle-choosing loop in `AdwaitaWindow::open` (`src/lib.rs` lines
157-162): re-roll a random `ManualTextureViewHandle` until the
`contains_key` membership test against the registry fails.  The random
source is modelled as a list of candidate rolls; `none` means the supply
of rolls was exhausted (the real loop draws from an unbounded stream). -/
def chooseHandle (rolls : List Nat) (views : Registry) : Option Nat :=
  rolls.find? (fun h => !containsKey views h)

/-- The observable outcome of `AdwaitaWindow::open`: either the entity is
inserted with its fresh window component, or the process is terminated
with a diagnostic. -/
inductive OpenOutcome where
  | ok (w : AdwaitaWindow)
  | panic (msg : String)
deriving DecidableEq, Repr

/-- `AdwaitaWindow::open` (`src/lib.rs` lines 135-180), restricted to its
observable effects: choose a collision-free handle against the registry,
insert the fresh window component, then send the one-shot open request.
Modelled from the spec: `flume::Sender::send` on a channel whose receiver
has been dropped returns an error (the channel crate is an external
collaborator); `.expect("Adwaita main thread dropped")` turns that error
into a process-terminating panic with that diagnostic.  `receiverAlive`
is whether the Adwaita main thread still holds the receiver.  `none`
means the modelled roll supply ran out before a collision-free handle was
found. -/
def openWindow (rolls : List Nat) (receiverAlive : Bool) (views : Registry) :
    Option OpenOutcome :=
  (chooseHandle rolls views).map (fun handle =>
    if receiverAlive then OpenOutcome.ok (newWindow handle)
    else OpenOutcome.panic "Adwaita main thread dropped")

/-- Successive `AdwaitaWindow::open` calls with no intervening poll tick:
the new window is appended to the list of live window entities, and the
registry is not touched (a handle is only registered by `poll_windows`
at the first allocation).  `none` propagates a failed open. -/
def openInWorld (rolls : List Nat) (receiverAlive : Bool)
    (world : List AdwaitaWindow) (views : Registry) :
    Option (List AdwaitaWindow) :=
  match openWindow rolls receiverAlive views with
  | some (OpenOutcome.ok w) => some (world ++ [w])
  | _ => none

/-- The transient `RenderWindow` record spawned by `extract_windows`: it
carries the taken frame descriptor; its `Arc` reference to the entity's
consumer-facing cell is modelled by threading that cell explicitly
through `sendFrameInfoToWindow`. -/
structure RenderWindow where
  next_frame_info : Option FrameInfo
deriving DecidableEq, Repr

/-- One iteration of the `extract_windows` loop body (`src/lib.rs` lines
286-297) for one window entity: take from the producer-side slot; if a
frame descriptor was pending, spawn a transient `RenderWindow` record
carrying it, otherwise skip the entity. -/
def extractWindow (w : AdwaitaWindow) : AdwaitaWindow × Option RenderWindow :=
  let t := slotTake w.next_frame_info
  let w' := { w with next_frame_info := t.2 }
  match t.1 with
  | none => (w', none)
  | some fi => (w', some { next_frame_info := some fi })

/-- One iteration of the `send_frame_info_to_windows` loop body
(`src/lib.rs` lines 299-309) for one transient record: take the record's
frame descriptor and, if present, store it into the consumer-facing
shared cell (newest-wins overwrite). -/
def sendFrameInfoToWindow (rw : RenderWindow) (shared : Option FrameInfo) :
    RenderWindow × Option FrameInfo :=
  match rw.next_frame_info with
  | none => (rw, shared)
  | some fi => ({ rw with next_frame_info := none }, slotStore fi shared)

/-- One complete extract-then-publish cycle for one window entity: the
extract phase followed by the publish phase, with the entity's `Arc`-
shared consumer-facing cell threaded explicitly.  Returns the entity's
post state and the transient record (if one was spawned). -/
def extractPublishCycle (w : AdwaitaWindow) : AdwaitaWindow × Option RenderWindow :=
  let er := extractWindow w
  match er.2 with
  | none => (er.1, none)
  | some rw =>
    let pr := sendFrameInfoToWindow rw er.1.shared_next_frame
    ({ er.1 with shared_next_frame := pr.2 }, some pr.1)

/-! ### Helper lemmas -/

/-- A nonempty sequence of stores into a single-slot cell leaves exactly
the last stored value in the slot. -/
theorem foldl_slotStore (l : List α) (init : Option α) (h : l ≠ []) :
    l.foldl (fun c v => slotStore v c) init = l.getLast? := by
  induction l generalizing init with
  | nil => exact absurd rfl h
  | cons a as ih =>
    cases as with
    | nil => simp [slotStore]
    | cons b bs =>
      rw [List.foldl_cons, ih _ (by simp), List.getLast?_cons_cons]

/-! ### Claim theorems -/

/-- C1: the producer-side frame cell is a single-slot, newest-wins cell:
after any nonempty sequence of stores with no intervening take, a take
returns exactly the most recently stored frame descriptor, and every
later take (with no further store) returns nothing — in particular no
earlier stored descriptor is ever observable. -/
theorem frame_cell_newest_wins (init : Option FrameInfo) (l : List FrameInfo)
    (h : l ≠ []) :
    (slotTake (l.foldl (fun c v => slotStore v c) init)).1 = some (l.getLast h) ∧
    ∀ k : Nat,
      (slotTake ((fun s => (slotTake s).2)^[k]
        (slotTake (l.foldl (fun c v => slotStore v c) init)).2)).1 =
      (none : Option FrameInfo) := by
  constructor
  · rw [slotTake, foldl_slotStore _ _ h, List.getLast?_eq_getLast _ h]
  · intro k
    simp [slotTake]
    exact Function.iterate_fixed rfl k

/-- C1 witness: storing two concrete frame descriptors and then taking
yields the second one. -/
theorem frame_cell_newest_wins_witness :
    (slotTake (([⟨⟨⟨800, 600⟩, 3⟩, 4⟩, ⟨⟨⟨1024, 768⟩, 5⟩, 6⟩] : List FrameInfo).foldl
      (fun c v => slotStore v c) none)).1 = some ⟨⟨⟨1024, 768⟩, 5⟩, 6⟩ :=
  (frame_cell_newest_wins none [⟨⟨⟨800, 600⟩, 3⟩, 4⟩, ⟨⟨⟨1024, 768⟩, 5⟩, 6⟩]
    (by decide)).1

/-- C3: one extract-then-publish cycle forwards the pending frame
descriptor (if any) exactly once into the consumer-facing shared cell;
an empty producer-side slot is skipped without spawning a record or
touching the shared cell; and afterwards the producer-side slot is empty
and the transient record no longer holds a descriptor. -/
theorem extract_publish_exactly_once (w : AdwaitaWindow) :
    (extractPublishCycle w).1.next_frame_info = none ∧
    (match w.next_frame_info with
     | some fi =>
        (extractPublishCycle w).1.shared_next_frame = some fi ∧
        (extractPublishCycle w).2 = some { next_frame_info := none }
     | none =>
        (extractPublishCycle w).1.shared_next_frame = w.shared_next_frame ∧
        (extractPublishCycle w).2 = none) := by
  cases h : w.next_frame_info <;>
    simp [extractPublishCycle, extractWindow, sendFrameInfoToWindow,
      slotTake, slotStore, h]

/-- Sentinel ticks from a fresh window are no-ops: a run that starts with
`n` ticks reporting the `-1` sentinel behaves like the run without them,
with `n` allocator-free observations in front. -/
theorem runTicks_sentinel_skip (alloc : UVec2 → Nat × Nat) (handle : Nat)
    (n : Nat) (ts : List TickInput) :
    runTicks alloc (some (newWindow handle, []))
        (List.replicate n ⟨false, -1, -1⟩ ++ ts) =
      ((runTicks alloc (some (newWindow handle, [])) ts).1,
        List.replicate n none ++ (runTicks alloc (some (newWindow handle, [])) ts).2) := by
  induction n with
  | zero => simp
  | succ n ih =>
    rw [List.replicate_succ, List.cons_append]
    have hstep : runTicks alloc (some (newWindow handle, []))
        ((⟨false, -1, -1⟩ : TickInput) ::
          (List.replicate n (⟨false, -1, -1⟩ : TickInput) ++ ts)) =
        ((runTicks alloc (some (newWindow handle, []))
            (List.replicate n (⟨false, -1, -1⟩ : TickInput) ++ ts)).1,
          none :: (runTicks alloc (some (newWindow handle, []))
            (List.replicate n (⟨false, -1, -1⟩ : TickInput) ++ ts)).2) := rfl
    rw [hstep, ih]
    simp [List.replicate_succ]

/-- C2: when a valid size is read and the clamped size equals
`last_render_target_size`, the poll tick skips reallocation entirely; in
particular the reported size sequence (800,600), (800,600), (1024,768) on
three consecutive ticks invokes the allocator on ticks 1 and 3 and not on
tick 2. -/
theorem dedup_reallocation (alloc : UVec2 → Nat × Nat) (w : AdwaitaWindow)
    (views : Registry) (width height : Nat)
    (hc : w.closed = false)
    (hw : u32TryFrom w.render_target_width = some width)
    (hh : u32TryFrom w.render_target_height = some height)
    (he : (⟨max width 1, max height 1⟩ : UVec2) = w.last_render_target_size) :
    pollWindow alloc w views =
      { despawned := false, window := w, views := views, allocated := none } ∧
    (runTicks alloc (some (newWindow 7, []))
      [⟨false, 800, 600⟩, ⟨false, 800, 600⟩, ⟨false, 1024, 768⟩]).2 =
      [some ⟨800, 600⟩, none, some ⟨1024, 768⟩] := by
  constructor
  · simp [pollWindow, hc, hw, hh, he]
  · simp [runTicks, pollWindow, applyInput, newWindow, u32TryFrom,
      insertReplace, containsKey, slotStore]

/-- C2 witness: the state a window is in on tick 2 of the concrete trace
(size cells at 800×600, last allocated size 800×600) makes the poll tick
a no-op, and the three-tick trace allocates on ticks 1 and 3 only. -/
theorem dedup_reallocation_witness :
    pollWindow (fun _ => (0, 0))
        { applyInput (newWindow 7) ⟨false, 800, 600⟩ with
            last_render_target_size := ⟨800, 600⟩ } [] =
      { despawned := false,
        window := { applyInput (newWindow 7) ⟨false, 800, 600⟩ with
            last_render_target_size := ⟨800, 600⟩ },
        views := [], allocated := none } ∧
    (runTicks (fun _ => (0, 0)) (some (newWindow 7, []))
      [⟨false, 800, 600⟩, ⟨false, 800, 600⟩, ⟨false, 1024, 768⟩]).2 =
      [some ⟨800, 600⟩, none, some ⟨1024, 768⟩] :=
  dedup_reallocation (fun _ => (0, 0))
    { applyInput (newWindow 7) ⟨false, 800, 600⟩ with
        last_render_target_size := ⟨800, 600⟩ } [] 800 600
    rfl (by decide) (by decide) (by decide)

/-- C4 counterexample: two windows opened in succession with no poll tick
in between can end up both holding render-target handle 5: a handle is
only registered in the registry by `poll_windows` at the first
allocation, so the membership test in the second open does not see the
first window's handle, and two concurrently live entities share it. -/
theorem handle_uniqueness_counterexample :
    openInWorld [5] true [] [] = some [newWindow 5] ∧
    openInWorld [5] true [newWindow 5] [] = some [newWindow 5, newWindow 5] ∧
    [newWindow 5, newWindow 5].map (fun w => w.render_target_handle) = [5, 5] := by
  decide

/-- C4 amended: the chosen handle is unique with respect to the
render-target registry: `AdwaitaWindow::open` re-rolls until the
membership test against `ManualTextureViews` fails, so the chosen handle
is never one already registered there; uniqueness among all live window
entities follows only once every previously opened window has performed
its first allocation (which is what registers its handle). -/
theorem handle_unique_in_registry (rolls : List Nat) (views : Registry)
    (handle : Nat) (hc : chooseHandle rolls views = some handle) :
    containsKey views handle = false := by
  have hp := List.find?_some hc
  simpa using hp

/-- C4 amended witness: with rolls 3 then 5 against a registry holding
handle 3, the chosen handle 5 is not registered. -/
theorem handle_unique_in_registry_witness :
    containsKey [(3, ⟨1, 1⟩)] 5 = false :=
  handle_unique_in_registry [3, 5] [(3, ⟨1, 1⟩)] 5 (by decide)

/-- C5: if either shared size integer holds a value that fails to convert
to a non-negative pixel size (in particular the `-1` sentinel), the poll
tick is a no-op for that entity: no allocation, no frame store, and
`last_render_target_size` unchanged. -/
theorem sentinel_skip (alloc : UVec2 → Nat × Nat) (w : AdwaitaWindow)
    (views : Registry) (hc : w.closed = false)
    (hs : w.render_target_width < 0 ∨ w.render_target_height < 0) :
    pollWindow alloc w views =
      { despawned := false, window := w, views := views, allocated := none } := by
  have key : u32TryFrom w.render_target_width = none ∨
      u32TryFrom w.render_target_height = none := by
    rcases hs with hs | hs
    · exact Or.inl (by simp [u32TryFrom, not_le.mpr hs])
    · exact Or.inr (by simp [u32TryFrom, not_le.mpr hs])
  cases hwid : u32TryFrom w.render_target_width with
  | none =>
    cases hhei : u32TryFrom w.render_target_height <;>
      simp [pollWindow, hc, hwid, hhei]
  | some v =>
    cases hhei : u32TryFrom w.render_target_height with
    | none => simp [pollWindow, hc, hwid, hhei]
    | some u => rw [hwid, hhei] at key; simp at key

/-- C5 witness: a freshly opened window has both size cells at `-1`, and
its first poll tick is a no-op. -/
theorem sentinel_skip_witness :
    pollWindow (fun _ => (0, 0)) (newWindow 3) [] =
      { despawned := false, window := newWindow 3, views := [], allocated := none } :=
  sentinel_skip (fun _ => (0, 0)) (newWindow 3) [] rfl (Or.inl (by decide))

/-- C6: every size handed to the allocator is clamped to a minimum of 1
in each dimension, so zero-sized allocations never occur; concretely a
reported size of (0,50) allocates at (1,50) and (0,0) allocates at
(1,1). -/
theorem minimum_size_clamp (alloc : UVec2 → Nat × Nat) (w : AdwaitaWindow)
    (views : Registry) (s : UVec2)
    (h : (pollWindow alloc w views).allocated = some s) :
    (1 ≤ s.x ∧ 1 ≤ s.y) ∧
    (pollWindow alloc (applyInput (newWindow 0) ⟨false, 0, 50⟩) []).allocated =
      some ⟨1, 50⟩ ∧
    (pollWindow alloc (applyInput (newWindow 0) ⟨false, 0, 0⟩) []).allocated =
      some ⟨1, 1⟩ := by
  refine ⟨?_, ?_, ?_⟩
  · by_cases hc : w.closed
    · simp [pollWindow, hc] at h
    · cases hwid : u32TryFrom w.render_target_width with
      | none =>
        cases hhei : u32TryFrom w.render_target_height <;>
          simp [pollWindow, hc, hwid, hhei] at h
      | some width =>
        cases hhei : u32TryFrom w.render_target_height with
        | none => simp [pollWindow, hc, hwid, hhei] at h
        | some height =>
          by_cases hsz :
              (⟨max width 1, max height 1⟩ : UVec2) = w.last_render_target_size
          · simp [pollWindow, hc, hwid, hhei, hsz] at h
          · simp [pollWindow, hc, hwid, hhei, hsz] at h
            cases h
            exact ⟨Nat.le_max_right width 1, Nat.le_max_right height 1⟩
  · simp [pollWindow, applyInput, newWindow, u32TryFrom]
  · simp [pollWindow, applyInput, newWindow, u32TryFrom]

/-- C6 witness: a window reporting (0,50) from the fresh state allocates
at (1,50), and the clamp bounds hold of that size. -/
theorem minimum_size_clamp_witness :
    ((1 ≤ (⟨1, 50⟩ : UVec2).x ∧ 1 ≤ (⟨1, 50⟩ : UVec2).y) ∧
      (pollWindow (fun _ => (0, 0)) (applyInput (newWindow 0) ⟨false, 0, 50⟩) []).allocated =
        some ⟨1, 50⟩ ∧
      (pollWindow (fun _ => (0, 0)) (applyInput (newWindow 0) ⟨false, 0, 0⟩) []).allocated =
        some ⟨1, 1⟩) :=
  minimum_size_clamp (fun _ => (0, 0))
    (applyInput (newWindow 0) ⟨false, 0, 50⟩) [] ⟨1, 50⟩ (by decide)

/-- C7: a window whose closed flag is true at the start of a poll tick is
despawned with all remaining steps skipped; and closing a window before
any size is ever reported destroys the entity with the allocator never
invoked on any tick. -/
theorem close_teardown (alloc : UVec2 → Nat × Nat) (w : AdwaitaWindow)
    (views : Registry) (n : Nat) (hc : w.closed = true) :
    pollWindow alloc w views =
      { despawned := true, window := w, views := views, allocated := none } ∧
    runTicks alloc (some (newWindow 7, []))
        (List.replicate n ⟨false, -1, -1⟩ ++ [⟨true, -1, -1⟩]) =
      (none, List.replicate (n + 1) none) := by
  constructor
  · simp [pollWindow, hc]
  · rw [runTicks_sentinel_skip, List.replicate_succ']
    have hlast : runTicks alloc (some (newWindow 7, [])) [⟨true, -1, -1⟩] =
        (none, [none]) := by
      simp [runTicks, pollWindow, applyInput]
    rw [hlast]

/-- C7 witness: setting the closed flag with the size cells still at the
sentinel despawns the window, and a trace of two sentinel ticks followed
by a closing tick performs no allocation at all. -/
theorem close_teardown_witness :
    pollWindow (fun _ => (0, 0)) (applyInput (newWindow 7) ⟨true, -1, -1⟩) [] =
      { despawned := true, window := applyInput (newWindow 7) ⟨true, -1, -1⟩,
        views := [], allocated := none } ∧
    runTicks (fun _ => (0, 0)) (some (newWindow 7, []))
        (List.replicate 2 ⟨false, -1, -1⟩ ++ [⟨true, -1, -1⟩]) =
      (none, List.replicate (2 + 1) none) :=
  close_teardown (fun _ => (0, 0)) (applyInput (newWindow 7) ⟨true, -1, -1⟩) [] 2 rfl

/-- C8: `last_render_target_size` retains its previous value on any poll
tick on which the allocator is not invoked.  (The model's allocator is
total, matching the spec's treatment of allocation failure as fatal for
the window's pipeline: a tick either invokes the allocator successfully
or does not invoke it at all.) -/
theorem last_size_only_on_allocation (alloc : UVec2 → Nat × Nat)
    (w : AdwaitaWindow) (views : Registry)
    (h : (pollWindow alloc w views).allocated = none) :
    (pollWindow alloc w views).window.last_render_target_size =
      w.last_render_target_size := by
  by_cases hc : w.closed
  · simp [pollWindow, hc]
  · cases hwid : u32TryFrom w.render_target_width with
    | none =>
      cases hhei : u32TryFrom w.render_target_height <;>
        simp [pollWindow, hc, hwid, hhei]
    | some width =>
      cases hhei : u32TryFrom w.render_target_height with
      | none => simp [pollWindow, hc, hwid, hhei]
      | some height =>
        by_cases hsz :
            (⟨max width 1, max height 1⟩ : UVec2) = w.last_render_target_size
        · simp [pollWindow, hc, hwid, hhei, hsz]
        · simp [pollWindow, hc, hwid, hhei, hsz] at h

/-- C8 witness: a sentinel tick does not invoke the allocator and leaves
`last_render_target_size` unchanged. -/
theorem last_size_only_on_allocation_witness :
    (pollWindow (fun _ => (0, 0)) (newWindow 8) []).window.last_render_target_size =
      (newWindow 8).last_render_target_size :=
  last_size_only_on_allocation (fun _ => (0, 0)) (newWindow 8) [] (by decide)

/-- C9: sending the one-shot open request after the Adwaita main thread
has dropped the receiver is fatal for the producer: `AdwaitaWindow::open`
terminates with the diagnostic "Adwaita main thread dropped" instead of
returning a window. -/
theorem open_fatal_on_dead_receiver (rolls : List Nat) (views : Registry)
    (handle : Nat) (hc : chooseHandle rolls views = some handle) :
    openWindow rolls false views =
      some (OpenOutcome.panic "Adwaita main thread dropped") := by
  simp [openWindow, hc]

/-- C9 witness: a single roll against an empty registry succeeds, and the
open with a dead receiver ends in the fatal diagnostic. -/
theorem open_fatal_on_dead_receiver_witness :
    openWindow [0] false [] =
      some (OpenOutcome.panic "Adwaita main thread dropped") :=
  open_fatal_on_dead_receiver [0] [] 0 (by decide)

/-- C10: a freshly opened window always allocates on the first poll tick
that reads a valid size: `last_render_target_size` starts at (0,0) while
every clamped size has both dimensions at least 1, so the
equality-with-last-size skip cannot fire; after any number of sentinel
ticks, the first valid-size tick invokes the allocator at the clamped
size. -/
theorem first_valid_tick_allocates (alloc : UVec2 → Nat × Nat)
    (handle : Nat) (n : Nat) (t : TickInput)
    (hc : t.closed = false) (hw : 0 ≤ t.width) (hh : 0 ≤ t.height) :
    (newWindow handle).last_render_target_size = ⟨0, 0⟩ ∧
    (runTicks alloc (some (newWindow handle, []))
        (List.replicate n ⟨false, -1, -1⟩ ++ [t])).2 =
      List.replicate n none ++
        [some ⟨max t.width.toNat 1, max t.height.toNat 1⟩] := by
  refine ⟨rfl, ?_⟩
  rw [runTicks_sentinel_skip]
  have hne : (⟨max t.width.toNat 1, max t.height.toNat 1⟩ : UVec2) ≠
      (⟨0, 0⟩ : UVec2) := by
    intro hcon
    rw [UVec2.mk.injEq] at hcon
    omega
  simp [runTicks, pollWindow, applyInput, newWindow, u32TryFrom, hc, hw, hh, hne]

/-- C10 witness: one sentinel tick followed by a valid 800×600 report
allocates on the second tick at 800×600. -/
theorem first_valid_tick_allocates_witness :
    (newWindow 7).last_render_target_size = ⟨0, 0⟩ ∧
    (runTicks (fun _ => (0, 0)) (some (newWindow 7, []))
        (List.replicate 1 ⟨false, -1, -1⟩ ++ [⟨false, 800, 600⟩])).2 =
      List.replicate 1 none ++
        [some ⟨max (Int.toNat 800) 1, max (Int.toNat 600) 1⟩] :=
  first_valid_tick_allocates (fun _ => (0, 0)) 7 1 ⟨false, 800, 600⟩
    rfl (by decide) (by decide)

end Adwaita
